import Mathlib

/-!
Shallow embedding of the VRITS-Python-Game repository (two source files:
`Python Game/game.py`, the advanced pixel-probe variant, and
`Python Game/Python Game/Game.py`, the early geometric variant) together
with theorems settling the frozen claims about its specification.

Python floats are modelled as rationals (for purely arithmetic code) or
reals (for code involving `sqrt`, `cos`, `sin`); Python `int()` truncation
toward zero and Python's float `%` are modelled explicitly.
-/

namespace VRITS

/-! ## Constants of `game.py` (the advanced variant) -/

def WINDOW_WIDTH : ℕ := 800
def WINDOW_HEIGHT : ℕ := 600
def FRAMERATE : ℕ := 60
def PLAYER_INIT_SIZE : ℤ := 6
def PLAYER_INIT_SIDES : ℕ := 6
noncomputable def PLAYER_INIT_FRICTION : ℝ := 875 / 1000
noncomputable def PLAYER_ACC_LIMIT : ℝ := 8 / 10
def PLAYER_SPEED_LIMIT : ℝ := 24
def FRAMES_PER_ENEMY_SPAWN_INIT : ℚ := 50
def FRAMES_PER_ENEMY_SPAWN_MIN : ℤ := 20
def ENEMY_BIG_COLOR_CODE : ℕ := 4
def ENEMY_SMALL_COLOR_CODE : ℕ := 3

/-- Python's `sys.maxsize`, the initial value of `min_square_dist` in
`check_collision`. -/
def SYS_MAXSIZE : ℝ := 2 ^ 63 - 1

/-! ## Python numeric primitives -/

/-- `int(x)` on a Python float truncates toward zero: floor for
nonnegative arguments, ceiling for negative ones (rational version). -/
def pyInt (q : ℚ) : ℤ := if 0 ≤ q then ⌊q⌋ else ⌈q⌉

/-- `int(x)` truncation toward zero, real version (for pixel coordinates
computed from `cos`/`sin`). -/
noncomputable def pyTrunc (x : ℝ) : ℤ := if 0 ≤ x then ⌊x⌋ else ⌈x⌉

/-- Python's float `%`: `x % y = x - y * floor(x / y)` (result has the
sign of the divisor), used by `rotation %= 2.0 * math.pi`. -/
noncomputable def pyMod (x y : ℝ) : ℝ := x - y * ⌊x / y⌋

/-! ## Spawn schedule (`gameplay_loop` / `title_screen_loop`, game.py)

Source:
```
frames_per_enemy_spawn = int(FRAMES_PER_ENEMY_SPAWN_INIT - (game_data.score / 2))
if frames_per_enemy_spawn < FRAMES_PER_ENEMY_SPAWN_MIN:
    frames_per_enemy_spawn = frames_per_enemy_spawn
if random.randint(1, frames_per_enemy_spawn) == 1: ...
```
Note the guard's body re-assigns the variable to itself, so it is a no-op;
the embedding keeps it to mirror the source exactly. -/
def frames_per_enemy_spawn (score : ℕ) : ℤ :=
  let f : ℤ := pyInt (FRAMES_PER_ENEMY_SPAWN_INIT - (score : ℚ) / 2)
  if f < FRAMES_PER_ENEMY_SPAWN_MIN then f else f

/-! ## Strategy A: the geometric variant (`Python Game/Game.py`)

Constants of that file: window 512×512, player starts at size 4.
`PolygonActor.collidesWith` computes `dist = sqrt(dx*dx + dy*dy)` and
returns `dist < self.size + otherPolygonActor.size`; since
`sqrt d < s ↔ 0 < s ∧ d < s * s` for `d ≥ 0`, the embedding uses the
squared form over ℚ (the exact equivalence with the source's square-root
form is proved in `collidesWith_eq_sqrt_lt` below).  Positions are
rationals, sizes are Python ints. -/

structure GPoly where
  position : ℚ × ℚ
  size : ℤ
  deriving Repr, DecidableEq

def dist2 (a b : ℚ × ℚ) : ℚ :=
  (a.1 - b.1) * (a.1 - b.1) + (a.2 - b.2) * (a.2 - b.2)

def collidesWith (self other : GPoly) : Bool :=
  decide (0 < self.size + other.size) &&
    decide (dist2 self.position other.position
      < ((self.size + other.size : ℤ) : ℚ) * ((self.size + other.size : ℤ) : ℚ))

/-- One pass of the main-loop collision scan of `Python Game/Game.py`:
```
nonCollidingEnemies = []
for enemy in enemies:
    if player.collidesWith(enemy):
        if player.size > enemy.size:
            player.size += 1
        else:
            isDone = True
    else:
        nonCollidingEnemies.append(enemy)
enemies = nonCollidingEnemies
```
The player's position is fixed during the scan; its size mutates as
enemies are eaten, and the evolving size feeds both `collidesWith` and the
size comparison of later iterations.  Returns
(final player size, retained enemies in order, isDone flag). -/
def collisionPassAux (ppos : ℚ × ℚ) (psize : ℤ) (done : Bool) :
    List GPoly → ℤ × List GPoly × Bool
  | [] => (psize, [], done)
  | e :: rest =>
    if collidesWith ⟨ppos, psize⟩ e then
      if e.size < psize then
        collisionPassAux ppos (psize + 1) done rest
      else
        collisionPassAux ppos psize true rest
    else
      let r := collisionPassAux ppos psize done rest
      (r.1, e :: r.2.1, r.2.2)

def collisionPass (ppos : ℚ × ℚ) (psize : ℤ) (enemies : List GPoly) :
    ℤ × List GPoly × Bool :=
  collisionPassAux ppos psize false enemies

/-! ## game.py data model

`MoveData` and `SpriteData` are the two dataclasses; rendering-only fields
(`outline_color`, the cached `verts`, colors) are modelled separately:
`verts` is regenerated from the kinematic state by `generate_poly` every
frame before it is used, and the enemy fill color is the function
`update_color` of the two sizes. -/

structure MoveData where
  speed : ℝ × ℝ
  position : ℝ × ℝ
  acceleration : ℝ × ℝ
  friction : ℝ
  rotation : ℝ
  rotation_rate : ℝ

structure SpriteData where
  size : ℤ
  num_sides : ℕ

/-- Shared shape of `PlayerActor` and `EnemyActor` instances. -/
structure ActorData where
  move_data : MoveData
  sprite_data : SpriteData

/-- Instantaneous key-down state of the four directional keys. -/
structure Keys where
  left : Bool
  right : Bool
  up : Bool
  down : Bool

/-- `length(vec)` of game.py: `sqrt(vec[0] * vec[0] + vec[1] * vec[1])`. -/
noncomputable def length (vec : ℝ × ℝ) : ℝ :=
  Real.sqrt (vec.1 * vec.1 + vec.2 * vec.2)

/-- `Actor.modify_speed`: multiply both speed components by friction. -/
noncomputable def Actor.modify_speed (md : MoveData) : MoveData :=
  { md with speed := (md.speed.1 * md.friction, md.speed.2 * md.friction) }

/-- `Actor.move`, parametrized on the (dynamically dispatched)
`accelerate` and `modify_speed` policies:
accelerate, add acceleration to speed, modify speed, add speed to
position, advance and wrap rotation. -/
noncomputable def Actor.move (accPolicy modPolicy : MoveData → MoveData)
    (md : MoveData) : MoveData :=
  let md1 := accPolicy md
  let md2 := { md1 with
    speed := (md1.speed.1 + md1.acceleration.1, md1.speed.2 + md1.acceleration.2) }
  let md3 := modPolicy md2
  let md4 := { md3 with
    position := (md3.position.1 + md3.speed.1, md3.position.2 + md3.speed.2) }
  { md4 with rotation := pyMod (md4.rotation + md4.rotation_rate) (2 * Real.pi) }

/-- `PlayerActor.accelerate`: keyboard-derived acceleration, magnitude
clamped to `PLAYER_ACC_LIMIT`. -/
noncomputable def PlayerActor.accelerate (keys : Keys) (md : MoveData) : MoveData :=
  let ax : ℝ := (if keys.left then -PLAYER_ACC_LIMIT else 0)
    + (if keys.right then PLAYER_ACC_LIMIT else 0)
  let ay : ℝ := (if keys.up then -PLAYER_ACC_LIMIT else 0)
    + (if keys.down then PLAYER_ACC_LIMIT else 0)
  let acc_mag := length (ax, ay)
  let a : ℝ × ℝ :=
    if acc_mag > PLAYER_ACC_LIMIT then
      (ax * (PLAYER_ACC_LIMIT / acc_mag), ay * (PLAYER_ACC_LIMIT / acc_mag))
    else (ax, ay)
  { md with acceleration := a }

/-- The magnitude clamp at the head of `PlayerActor.modify_speed`. -/
noncomputable def PlayerActor.clampSpeed (md : MoveData) : MoveData :=
  let speed_mag := length md.speed
  if speed_mag > PLAYER_SPEED_LIMIT then
    { md with speed := (md.speed.1 / speed_mag * PLAYER_SPEED_LIMIT,
                        md.speed.2 / speed_mag * PLAYER_SPEED_LIMIT) }
  else md

/-- `PlayerActor.modify_speed`: clamp the speed magnitude, then call the
base friction step (`super().modify_speed()`). -/
noncomputable def PlayerActor.modify_speed (md : MoveData) : MoveData :=
  Actor.modify_speed (PlayerActor.clampSpeed md)

/-- `PlayerActor.move`: the base integration followed by the four
sequential wall clamps of the position. -/
noncomputable def PlayerActor.move (keys : Keys) (pl : ActorData) : ActorData :=
  let md := Actor.move (PlayerActor.accelerate keys) PlayerActor.modify_speed
    pl.move_data
  let s : ℝ := (pl.sprite_data.size : ℝ)
  let x1 := if md.position.1 < s then s else md.position.1
  let x2 := if x1 > (WINDOW_WIDTH : ℝ) - s then (WINDOW_WIDTH : ℝ) - s else x1
  let y1 := if md.position.2 < s then s else md.position.2
  let y2 := if y1 > (WINDOW_HEIGHT : ℝ) - s then (WINDOW_HEIGHT : ℝ) - s else y1
  { pl with move_data := { md with position := (x2, y2) } }

/-- The wall-containment region `[size, W-size] × [size, H-size]` of the
player's position. -/
def inWalls (pl : ActorData) : Prop :=
  (pl.sprite_data.size : ℝ) ≤ pl.move_data.position.1 ∧
  pl.move_data.position.1 ≤ (WINDOW_WIDTH : ℝ) - (pl.sprite_data.size : ℝ) ∧
  (pl.sprite_data.size : ℝ) ≤ pl.move_data.position.2 ∧
  pl.move_data.position.2 ≤ (WINDOW_HEIGHT : ℝ) - (pl.sprite_data.size : ℝ)

/-- `PolygonActor.generate_poly`: vertex i of the regular polygon, at
angle `2π/num_sides * i + rotation`, distance `size` from `position`. -/
noncomputable def generate_poly (position : ℝ × ℝ) (rotation : ℝ)
    (size : ℤ) (num_sides : ℕ) : List (ℝ × ℝ) :=
  (List.range num_sides).map fun (i : ℕ) =>
    let angle : ℝ := 2 * Real.pi / (num_sides : ℝ) * (i : ℝ) + rotation
    ((size : ℝ) * Real.cos angle + position.1,
     (size : ℝ) * Real.sin angle + position.2)

/-- `EnemyActor.update_color`, as a function of the player's and the
enemy's sizes; returns the RGB fill color (Python floats, here ℚ). -/
def update_color (p_size e_size : ℤ) : ℚ × ℚ × ℚ :=
  if p_size < e_size then
    (255 * (p_size : ℚ) / (e_size : ℚ), 0, (ENEMY_BIG_COLOR_CODE : ℚ))
  else
    (0, 255 * (e_size : ℚ) / (p_size : ℚ), (ENEMY_SMALL_COLOR_CODE : ℚ))

/-! ## Strategy B: `PlayerActor.check_collision` (game.py)

The screen is modelled by the blue channel of its pixels, a function
`blueAt : ℤ × ℤ → ℕ`; the source reads
`self.screen.get_at((int(point[0]), int(point[1])))[2]`.  The cached
`sprite_data.verts` equal `generate_poly` of the current state because
`player.draw()` regenerates them immediately before `check_collision` in
the frame pipeline. -/

/-- The probe points: the player's polygon vertices, its center, and a
ring of 12 points at half its size. -/
noncomputable def points_to_check (pl : ActorData) : List (ℝ × ℝ) :=
  generate_poly pl.move_data.position pl.move_data.rotation
      pl.sprite_data.size pl.sprite_data.num_sides
    ++ [pl.move_data.position]
    ++ (List.range 12).map fun (i : ℕ) =>
        let angle : ℝ := 2 * Real.pi / 12 * (i : ℝ)
        ((pl.sprite_data.size : ℝ) / 2 * Real.cos angle + pl.move_data.position.1,
         (pl.sprite_data.size : ℝ) / 2 * Real.sin angle + pl.move_data.position.2)

/-- The nearest-enemy search of the small-hit branch: starts from
`enemies[0]` and `sys.maxsize`, scans every enemy, keeps the one of
strictly smaller squared distance from the triggering sample point. -/
noncomputable def find_closest (point : ℝ × ℝ) :
    List ActorData → ActorData → ℝ → ActorData
  | [], best, _ => best
  | e :: rest, best, m =>
    let x_diff := e.move_data.position.1 - point.1
    let y_diff := e.move_data.position.2 - point.2
    let square_dist := x_diff * x_diff + y_diff * y_diff
    if square_dist < m then find_closest point rest e square_dist
    else find_closest point rest best m

open Classical in
/-- `enemies.remove(closest_enemy)`: remove the first occurrence. -/
noncomputable def remove_first (e : ActorData) : List ActorData → List ActorData
  | [] => []
  | x :: rest => if x = e then rest else x :: remove_first e rest

/-- The three collision outcomes returned by `check_collision`. -/
inductive Collision where
  | DEAD
  | EAT
  | NONE
  deriving Repr, DecidableEq

/-- The probe loop of `check_collision`.  `none` models the uncaught
`IndexError` that `closest_enemy = enemies[0]` raises when a small-enemy
pixel is sampled while the enemy collection is empty. -/
noncomputable def scan_points (blueAt : ℤ × ℤ → ℕ) (pl : ActorData)
    (enemies : List ActorData) :
    List (ℝ × ℝ) → Option (Collision × ActorData × List ActorData)
  | [] => some (Collision.NONE, pl, enemies)
  | point :: rest =>
    let blue_code := blueAt (pyTrunc point.1, pyTrunc point.2)
    if blue_code = ENEMY_BIG_COLOR_CODE then
      some (Collision.DEAD, pl, enemies)
    else if blue_code = ENEMY_SMALL_COLOR_CODE then
      match enemies with
      | [] => none
      | e0 :: _ =>
        let closest := find_closest point enemies e0 SYS_MAXSIZE
        some (Collision.EAT,
          { pl with
            move_data :=
              { pl.move_data with rotation_rate := closest.move_data.rotation_rate },
            sprite_data :=
              { size := pl.sprite_data.size + 1,
                num_sides := closest.sprite_data.num_sides } },
          remove_first closest enemies)
    else scan_points blueAt pl enemies rest

/-- `PlayerActor.check_collision`. -/
noncomputable def check_collision (blueAt : ℤ × ℤ → ℕ) (pl : ActorData)
    (enemies : List ActorData) : Option (Collision × ActorData × List ActorData) :=
  scan_points blueAt pl enemies (points_to_check pl)

/-! ## Round state (`GameData`, `initialize_game_data`, restart) -/

/-- The round state of `GameData` relevant to core logic (clock, screen,
fonts and sounds are environment handles). -/
structure GameState where
  window_tint : List ℕ
  font_color : List ℕ
  score : ℕ
  player : ActorData
  enemies : List ActorData

/-- `initialize_game_data()`: fresh round state. -/
noncomputable def initialize_game_data : GameState :=
  { window_tint := [35, 15, 70]
  , font_color := [100, 100, 240]
  , score := 0
  , player :=
    { move_data :=
      { speed := (0, 0)
      , position := ((WINDOW_WIDTH : ℝ) / 2, (WINDOW_HEIGHT : ℝ) / 2)
      , acceleration := (0, 0)
      , friction := PLAYER_INIT_FRICTION
      , rotation := 0
      , rotation_rate := 0 }
    , sprite_data := { size := PLAYER_INIT_SIZE, num_sides := PLAYER_INIT_SIDES } }
  , enemies := [] }

/-- The restart branch of the game-over state in `gameplay_loop`: if
Enter is down, the whole `game_data` is replaced by
`initialize_game_data()` and play resumes; second component is the new
`game_is_playing` flag. -/
noncomputable def game_over_restart (enterDown : Bool) (gd : GameState) : GameState × Bool :=
  if enterDown then (initialize_game_data, true) else (gd, false)

/-- A player pressed toward the right wall: one frame later the clamp
puts it exactly at `position[0] = WINDOW_WIDTH - size` (used by the C9
analysis). -/
noncomputable def pre_wall_state : ActorData :=
  { move_data :=
    { speed := (20, 0)
    , position := (795, 300)
    , acceleration := (0, 0)
    , friction := PLAYER_INIT_FRICTION
    , rotation := 0
    , rotation_rate := 0 }
  , sprite_data := { size := PLAYER_INIT_SIZE, num_sides := PLAYER_INIT_SIDES } }

/-- Fixture: a kinematic state whose speed (3, 4) is below the speed
limit. -/
noncomputable def md_under : MoveData :=
  { speed := (3, 4), position := (0, 0), acceleration := (0, 0)
  , friction := 1, rotation := 0, rotation_rate := 0 }

/-- Fixture: a kinematic state whose speed (30, 40) is above the speed
limit 24. -/
noncomputable def md_over : MoveData :=
  { speed := (30, 40), position := (0, 0), acceleration := (0, 0)
  , friction := 1, rotation := 0, rotation_rate := 0 }

/-! # Theorems -/

/-! ## Bridging lemma: squared distance test vs the source's sqrt test -/

/-- The squared-comparison embedding agrees with the source's
`dist = sqrt(dx*dx + dy*dy); return dist < self.size + other.size`. -/
theorem collidesWith_eq_sqrt_lt (self other : GPoly) :
    collidesWith self other = true ↔
      Real.sqrt ((dist2 self.position other.position : ℚ) : ℝ)
        < ((self.size + other.size : ℤ) : ℝ) := by
  unfold collidesWith
  rcases le_or_lt (self.size + other.size) 0 with h | h
  · simp only [Bool.and_eq_true, decide_eq_true_eq]
    constructor
    · rintro ⟨h1, -⟩; exact absurd h1 (not_lt.mpr h)
    · intro hs
      exact absurd hs (not_lt.mpr (le_trans (by exact_mod_cast h) (Real.sqrt_nonneg _)))
  · have hs : (0 : ℝ) < ((self.size + other.size : ℤ) : ℝ) := by exact_mod_cast h
    simp only [Bool.and_eq_true, decide_eq_true_eq]
    rw [Real.sqrt_lt' hs, pow_two]
    constructor
    · rintro ⟨-, h2⟩; exact_mod_cast h2
    · intro h2; exact ⟨h, by exact_mod_cast h2⟩

/-! ## Structural lemmas about the Strategy A scan -/

theorem pass_kept_sublist (ppos : ℚ × ℚ) (psize : ℤ) (d : Bool) :
    ∀ l : List GPoly, (collisionPassAux ppos psize d l).2.1.Sublist l := by
  intro l
  induction l generalizing psize d with
  | nil => simp [collisionPassAux]
  | cons e rest ih =>
    unfold collisionPassAux
    by_cases hc : collidesWith ⟨ppos, psize⟩ e = true
    · rw [if_pos hc]
      by_cases hs : e.size < psize
      · rw [if_pos hs]; exact (ih _ _).cons e
      · rw [if_neg hs]; exact (ih _ _).cons e
    · rw [if_neg hc]
      exact (ih _ _).cons₂ e

theorem pass_size_mono (ppos : ℚ × ℚ) (psize : ℤ) (d : Bool) :
    ∀ l : List GPoly, psize ≤ (collisionPassAux ppos psize d l).1 := by
  intro l
  induction l generalizing psize d with
  | nil => simp [collisionPassAux]
  | cons e rest ih =>
    unfold collisionPassAux
    by_cases hc : collidesWith ⟨ppos, psize⟩ e = true
    · rw [if_pos hc]
      by_cases hs : e.size < psize
      · rw [if_pos hs]
        exact le_trans (by omega) (ih (psize + 1) d)
      · rw [if_neg hs]; exact ih psize true
    · rw [if_neg hc]; exact ih psize d

theorem pass_done_sticky (ppos : ℚ × ℚ) (psize : ℤ) :
    ∀ l : List GPoly, (collisionPassAux ppos psize true l).2.2 = true := by
  intro l
  induction l generalizing psize with
  | nil => simp [collisionPassAux]
  | cons e rest ih =>
    unfold collisionPassAux
    by_cases hc : collidesWith ⟨ppos, psize⟩ e = true
    · rw [if_pos hc]
      by_cases hs : e.size < psize
      · rw [if_pos hs]; exact ih (psize + 1)
      · rw [if_neg hs]; exact ih psize
    · rw [if_neg hc]; exact ih psize

theorem pass_size_count (ppos : ℚ × ℚ) (psize : ℤ) (d : Bool) :
    ∀ l : List GPoly, (collisionPassAux ppos psize d l).2.2 = false →
      (collisionPassAux ppos psize d l).1
        = psize + (l.length : ℤ) - ((collisionPassAux ppos psize d l).2.1.length : ℤ) := by
  intro l
  induction l generalizing psize d with
  | nil => simp [collisionPassAux]
  | cons e rest ih =>
    unfold collisionPassAux
    by_cases hc : collidesWith ⟨ppos, psize⟩ e = true
    · rw [if_pos hc]
      by_cases hs : e.size < psize
      · rw [if_pos hs]
        intro hdone
        have := ih (psize + 1) d hdone
        simp only [List.length_cons]
        omega
      · rw [if_neg hs]
        intro hdone
        exact absurd hdone (by simp [pass_done_sticky])
    · rw [if_neg hc]
      intro hdone
      have := ih psize d hdone
      simp only [List.length_cons]
      omega

theorem pass_no_hit (ppos : ℚ × ℚ) (psize : ℤ) (d : Bool) :
    ∀ l : List GPoly, (∀ e ∈ l, collidesWith ⟨ppos, psize⟩ e = false) →
      collisionPassAux ppos psize d l = (psize, l, d) := by
  intro l
  induction l generalizing d with
  | nil => simp [collisionPassAux]
  | cons e rest ih =>
    intro hno
    unfold collisionPassAux
    have he : collidesWith ⟨ppos, psize⟩ e = false := hno e (List.mem_cons_self e rest)
    rw [if_neg (by simp [he])]
    have hrest := ih d (fun x hx => hno x (List.mem_cons_of_mem e hx))
    simp [hrest]

/-- C1 (amended): the Strategy A resolver scans the whole enemy collection
in spawn order without stopping at the first hit.  Every colliding enemy is
removed: each colliding enemy strictly smaller than the player's current
size grows the player by 1 (an eat), each colliding enemy of size ≥ the
player's current size marks the round dead; non-colliding enemies are kept
in order; if no enemy collides the state is unchanged (NONE).  Hence a
single pass may eat several enemies and may yield both an eat and a dead:
formally, the retained list is a sublist of the input, the player's size
never decreases, when the pass does not end dead the size grew by exactly
the number of removed enemies, and a pass with no geometric hit returns the
input unchanged with no death. -/
theorem C1_strategyA_pass (ppos : ℚ × ℚ) (psize : ℤ) (enemies : List GPoly) :
    (collisionPass ppos psize enemies).2.1.Sublist enemies ∧
    psize ≤ (collisionPass ppos psize enemies).1 ∧
    ((collisionPass ppos psize enemies).2.2 = false →
      (collisionPass ppos psize enemies).1
        = psize + (enemies.length : ℤ)
          - (((collisionPass ppos psize enemies).2.1.length : ℕ) : ℤ)) ∧
    ((∀ e ∈ enemies, collidesWith ⟨ppos, psize⟩ e = false) →
      collisionPass ppos psize enemies = (psize, enemies, false)) :=
  ⟨pass_kept_sublist ppos psize false enemies,
   pass_size_mono ppos psize false enemies,
   pass_size_count ppos psize false enemies,
   pass_no_hit ppos psize false enemies⟩

/-- Witness for `C1_strategyA_pass` at a concrete input: a single enemy of
size 5 at the origin does not geometrically hit a player of size 4 at
(256, 256), so the pass keeps it, stays alive, and the size accounting
closes. -/
theorem C1_strategyA_pass_witness :
    collisionPass (256, 256) 4 [⟨(0, 0), 5⟩] = (4, [⟨(0, 0), 5⟩], false) ∧
    (collisionPass (256, 256) 4 [⟨(0, 0), 5⟩]).1
      = 4 + (([(⟨(0, 0), 5⟩ : GPoly)].length : ℕ) : ℤ)
        - (((collisionPass (256, 256) 4 [⟨(0, 0), 5⟩]).2.1.length : ℕ) : ℤ) := by
  have h := C1_strategyA_pass (256, 256) 4 [⟨(0, 0), 5⟩]
  have hno : ∀ e ∈ [(⟨(0, 0), 5⟩ : GPoly)],
      collidesWith ⟨(256, 256), 4⟩ e = false := by
    intro e he
    simp only [List.mem_singleton] at he
    subst he
    simp only [collidesWith, dist2, Bool.and_eq_false_iff, decide_eq_false_iff_not]
    norm_num
  have h4 := h.2.2.2 hno
  refine ⟨h4, ?_⟩
  have h3 := h.2.2.1 (by rw [h4])
  simpa using h3

/-- C1 counterexample: with the player of size 10 at the origin and two
smaller overlapping enemies, one pass eats both (size 10 → 12, not at most
one eat); with a smaller and a larger overlapping enemy, one pass both eats
(size 10 → 11) and ends dead, so a single pass can yield an EAT and a DEAD
together, contrary to the claim's first-hit-only semantics. -/
theorem C1_strategyA_pass_counterexample :
    collisionPass (0, 0) 10 [⟨(0, 0), 5⟩, ⟨(1, 0), 6⟩] = (12, [], false) ∧
    collisionPass (0, 0) 10 [⟨(0, 0), 5⟩, ⟨(2, 0), 20⟩] = (11, [], true) := by
  constructor <;>
  · simp only [collisionPass, collisionPassAux, collidesWith, dist2]
    norm_num

/-! ## Claims C3 and C10: the spawn-interval schedule -/

/-- C3: the code's spawn interval is NOT floored at
`FRAMES_PER_ENEMY_SPAWN_MIN`; the guard's body is `x = x`, a no-op slip.
At score 61 the interval actually used as the `randint(1, n)` bound is 19,
strictly below the minimum 20 the claim (and the dead guard) intend. -/
theorem C3_spawn_floor_noop :
    frames_per_enemy_spawn 61 = 19 ∧ (19 : ℤ) < FRAMES_PER_ENEMY_SPAWN_MIN := by
  constructor
  · unfold frames_per_enemy_spawn pyInt FRAMES_PER_ENEMY_SPAWN_INIT
      FRAMES_PER_ENEMY_SPAWN_MIN
    norm_num
  · decide

/-- C10: once the score reaches 99 the spawn-interval value
`int(FRAMES_PER_ENEMY_SPAWN_INIT - score/2)` is below 1 (it is exactly 0 at
score 99 and, e.g., −1 at score 102), so passing it unguarded as the upper
bound of `random.randint(1, n)` violates randint's precondition `1 ≤ n` on
every frame of such a round. -/
theorem C10_spawn_randint_degenerate (s : ℕ) (h : 99 ≤ s) :
    frames_per_enemy_spawn s < 1 ∧
    frames_per_enemy_spawn 99 = 0 ∧ frames_per_enemy_spawn 102 = -1 := by
  refine ⟨?_, ?_, ?_⟩
  · unfold frames_per_enemy_spawn pyInt
    have hs : (99 : ℚ) ≤ (s : ℚ) := by exact_mod_cast h
    have hq : FRAMES_PER_ENEMY_SPAWN_INIT - (s : ℚ) / 2 ≤ 1 / 2 := by
      unfold FRAMES_PER_ENEMY_SPAWN_INIT
      linarith
    simp only [ite_self]
    by_cases h0 : 0 ≤ FRAMES_PER_ENEMY_SPAWN_INIT - (s : ℚ) / 2
    · rw [if_pos h0]
      have hf : ⌊FRAMES_PER_ENEMY_SPAWN_INIT - (s : ℚ) / 2⌋ ≤ ⌊(1 / 2 : ℚ)⌋ :=
        Int.floor_le_floor hq
      have : ⌊(1 / 2 : ℚ)⌋ = 0 := by
        rw [Int.floor_eq_zero_iff]
        constructor <;> norm_num
      omega
    · rw [if_neg h0]
      push_neg at h0
      have hc : ⌈FRAMES_PER_ENEMY_SPAWN_INIT - (s : ℚ) / 2⌉ ≤ 0 :=
        Int.ceil_le.mpr (by exact_mod_cast le_of_lt h0)
      omega
  · unfold frames_per_enemy_spawn pyInt FRAMES_PER_ENEMY_SPAWN_INIT
    norm_num
  · unfold frames_per_enemy_spawn pyInt FRAMES_PER_ENEMY_SPAWN_INIT
    simp only [ite_self]
    rw [show (50 : ℚ) - ((102 : ℕ) : ℚ) / 2 = ((-1 : ℤ) : ℚ) by norm_num]
    rw [if_neg (by norm_num), Int.ceil_intCast]

/-- Witness for `C10_spawn_randint_degenerate` at score 99. -/
theorem C10_spawn_randint_degenerate_witness :
    (99 : ℕ) ≤ 99 ∧ frames_per_enemy_spawn 99 < 1 :=
  ⟨le_refl 99, (C10_spawn_randint_degenerate 99 (le_refl 99)).1⟩

/-! ## Vector-length helper lemmas -/

theorem length_nonneg (v : ℝ × ℝ) : 0 ≤ length v := Real.sqrt_nonneg _

/-- `length` of a concrete vector, via a perfect square. -/
theorem length_eq_of_sq (a b c : ℝ) (hc : 0 ≤ c) (h : a * a + b * b = c ^ 2) :
    length (a, b) = c := by
  unfold length
  rw [h, Real.sqrt_sq hc]

/-- `length` scales by `|a|` under componentwise scaling. -/
theorem length_scale (a : ℝ) (v : ℝ × ℝ) :
    length (a * v.1, a * v.2) = |a| * length v := by
  unfold length
  rw [show a * v.1 * (a * v.1) + a * v.2 * (a * v.2)
      = a ^ 2 * (v.1 * v.1 + v.2 * v.2) by ring,
    Real.sqrt_mul (sq_nonneg a), Real.sqrt_sq_eq_abs]

/-- The speed clamp is the identity when the magnitude is within the
limit. -/
theorem clampSpeed_of_le (md : MoveData) (h : length md.speed ≤ PLAYER_SPEED_LIMIT) :
    PlayerActor.clampSpeed md = md := by
  simp only [PlayerActor.clampSpeed]
  rw [if_neg (not_lt.mpr h)]

theorem clampSpeed_friction (md : MoveData) :
    (PlayerActor.clampSpeed md).friction = md.friction := by
  simp only [PlayerActor.clampSpeed]
  split <;> rfl

/-! ## Claim C4: clamp-then-decay in the player's modify_speed -/

/-- C4: the player's `modify_speed` first clamps the speed magnitude —
a no-op when `|speed| ≤ PLAYER_SPEED_LIMIT`, and otherwise a rescaling
whose post-clamp magnitude is exactly the limit with the direction
preserved (a positive scalar multiple) — and only afterwards multiplies
both components by friction (the base `modify_speed` applied to the
clamped state). -/
theorem C4_clamp_then_decay (md : MoveData) :
    (length md.speed ≤ PLAYER_SPEED_LIMIT → PlayerActor.clampSpeed md = md) ∧
    (PLAYER_SPEED_LIMIT < length md.speed →
      length (PlayerActor.clampSpeed md).speed = PLAYER_SPEED_LIMIT ∧
      ∃ t : ℝ, 0 < t ∧
        (PlayerActor.clampSpeed md).speed = (t * md.speed.1, t * md.speed.2)) ∧
    PlayerActor.modify_speed md = Actor.modify_speed (PlayerActor.clampSpeed md) ∧
    (PlayerActor.modify_speed md).speed
      = ((PlayerActor.clampSpeed md).speed.1 * md.friction,
         (PlayerActor.clampSpeed md).speed.2 * md.friction) := by
  refine ⟨clampSpeed_of_le md, ?_, rfl, ?_⟩
  · intro h
    have hm : 0 < length md.speed := lt_trans (by norm_num [PLAYER_SPEED_LIMIT]) h
    have hclamp : (PlayerActor.clampSpeed md).speed
        = ((PLAYER_SPEED_LIMIT / length md.speed) * md.speed.1,
           (PLAYER_SPEED_LIMIT / length md.speed) * md.speed.2) := by
      simp only [PlayerActor.clampSpeed]
      rw [if_pos h]
      dsimp only
      rw [Prod.mk.injEq]
      constructor <;> ring
    have ht : 0 < PLAYER_SPEED_LIMIT / length md.speed :=
      div_pos (by norm_num [PLAYER_SPEED_LIMIT]) hm
    refine ⟨?_, PLAYER_SPEED_LIMIT / length md.speed, ht, hclamp⟩
    rw [hclamp]
    rw [show ((PLAYER_SPEED_LIMIT / length md.speed) * md.speed.1,
          (PLAYER_SPEED_LIMIT / length md.speed) * md.speed.2)
        = ((PLAYER_SPEED_LIMIT / length md.speed) * (md.speed.1, md.speed.2).1,
           (PLAYER_SPEED_LIMIT / length md.speed) * (md.speed.1, md.speed.2).2) from rfl]
    rw [length_scale, abs_of_pos ht]
    have : length (md.speed.1, md.speed.2) = length md.speed := by rfl
    rw [this, div_mul_cancel₀ _ (ne_of_gt hm)]
  · simp only [PlayerActor.modify_speed, Actor.modify_speed, clampSpeed_friction]

/-- Witness for `C4_clamp_then_decay`: at speed (3, 4) (magnitude 5 ≤ 24)
the clamp is a no-op; at speed (30, 40) (magnitude 50 > 24) the clamped
magnitude is exactly 24. -/
theorem C4_clamp_then_decay_witness :
    length md_under.speed ≤ PLAYER_SPEED_LIMIT ∧
    PlayerActor.clampSpeed md_under = md_under ∧
    PLAYER_SPEED_LIMIT < length md_over.speed ∧
    length (PlayerActor.clampSpeed md_over).speed = PLAYER_SPEED_LIMIT := by
  have hu : length md_under.speed = 5 :=
    length_eq_of_sq 3 4 5 (by norm_num) (by norm_num)
  have ho : length md_over.speed = 50 :=
    length_eq_of_sq 30 40 50 (by norm_num) (by norm_num)
  have hu24 : length md_under.speed ≤ PLAYER_SPEED_LIMIT := by
    rw [hu]; norm_num [PLAYER_SPEED_LIMIT]
  have ho24 : PLAYER_SPEED_LIMIT < length md_over.speed := by
    rw [ho]; norm_num [PLAYER_SPEED_LIMIT]
  exact ⟨hu24, (C4_clamp_then_decay md_under).1 hu24, ho24,
    ((C4_clamp_then_decay md_over).2.1 ho24).1⟩

/-! ## Claim C5: wall containment -/

/-- The wall clamp lands inside the walls whenever the walls enclose a
nonempty region for this size (regardless of the unclamped position). -/
theorem move_inWalls (keys : Keys) (pl : ActorData)
    (hw : (pl.sprite_data.size : ℝ) ≤ (WINDOW_WIDTH : ℝ) - (pl.sprite_data.size : ℝ))
    (hh : (pl.sprite_data.size : ℝ) ≤ (WINDOW_HEIGHT : ℝ) - (pl.sprite_data.size : ℝ)) :
    inWalls (PlayerActor.move keys pl) := by
  unfold PlayerActor.move inWalls
  dsimp only
  refine ⟨?_, ?_, ?_, ?_⟩ <;> split_ifs <;> linarith

/-- C5: one `PlayerActor.move` from any in-walls state lands in-walls (for
every key state), and consequently any sequence of moves keeps the player
inside `[size, W-size] × [size, H-size]`. -/
theorem C5_wall_containment :
    (∀ (keys : Keys) (pl : ActorData), inWalls pl → inWalls (PlayerActor.move keys pl)) ∧
    (∀ (ks : List Keys) (pl : ActorData), inWalls pl →
      inWalls (ks.foldl (fun p k => PlayerActor.move k p) pl)) := by
  have step : ∀ (keys : Keys) (pl : ActorData),
      inWalls pl → inWalls (PlayerActor.move keys pl) := by
    intro keys pl h
    obtain ⟨h1, h2, h3, h4⟩ := h
    exact move_inWalls keys pl (by linarith) (by linarith)
  refine ⟨step, ?_⟩
  intro ks
  induction ks with
  | nil => intro pl h; simpa using h
  | cons k rest ih =>
    intro pl h
    simpa using ih _ (step k pl h)

/-- Witness for `C5_wall_containment`: the freshly initialized player is
in-walls and stays in-walls after one move with Left and Down held. -/
theorem C5_wall_containment_witness :
    inWalls initialize_game_data.player ∧
    inWalls (PlayerActor.move ⟨true, false, false, true⟩ initialize_game_data.player) := by
  have h0 : inWalls initialize_game_data.player := by
    unfold inWalls initialize_game_data WINDOW_WIDTH WINDOW_HEIGHT PLAYER_INIT_SIZE
    norm_num
  exact ⟨h0, C5_wall_containment.1 ⟨true, false, false, true⟩ _ h0⟩

/-! ## Claim C6: polygon vertex generation -/

/-- C6: `generate_poly` returns exactly `num_sides` vertices; vertex i is
`position + size · (cos(2π·i/n + rotation), sin(2π·i/n + rotation))`;
every vertex lies at exact distance `size` from `position`; and vertex
i+1 sits at vertex i's angle plus exactly `2π/n` radians. -/
theorem C6_generate_poly (p : ℝ × ℝ) (r : ℝ) (size : ℤ) (n : ℕ)
    (hs : 0 < size) (hn : 3 ≤ n) :
    (generate_poly p r size n).length = n ∧
    (∀ i (h : i < (generate_poly p r size n).length),
      (generate_poly p r size n).get ⟨i, h⟩
        = ((size : ℝ) * Real.cos (2 * Real.pi / n * i + r) + p.1,
           (size : ℝ) * Real.sin (2 * Real.pi / n * i + r) + p.2)) ∧
    (∀ i (h : i < (generate_poly p r size n).length),
      length (((generate_poly p r size n).get ⟨i, h⟩).1 - p.1,
              ((generate_poly p r size n).get ⟨i, h⟩).2 - p.2) = (size : ℝ)) ∧
    (∀ i (h : i + 1 < (generate_poly p r size n).length),
      (generate_poly p r size n).get ⟨i + 1, h⟩
        = ((size : ℝ) * Real.cos ((2 * Real.pi / n * i + r) + 2 * Real.pi / n) + p.1,
           (size : ℝ) * Real.sin ((2 * Real.pi / n * i + r) + 2 * Real.pi / n) + p.2)) := by
  have hget : ∀ i (h : i < (generate_poly p r size n).length),
      (generate_poly p r size n).get ⟨i, h⟩
        = ((size : ℝ) * Real.cos (2 * Real.pi / n * i + r) + p.1,
           (size : ℝ) * Real.sin (2 * Real.pi / n * i + r) + p.2) := by
    intro i h
    simp only [generate_poly, List.get_eq_getElem, List.getElem_map, List.getElem_range]
  refine ⟨by simp only [generate_poly, List.length_map, List.length_range], hget, ?_, ?_⟩
  · intro i h
    rw [hget i h]
    dsimp only
    rw [add_sub_cancel_right, add_sub_cancel_right]
    have hsz : (0 : ℝ) ≤ (size : ℝ) := by exact_mod_cast le_of_lt hs
    apply length_eq_of_sq _ _ _ hsz
    linear_combination ((size : ℝ)) ^ 2 * Real.sin_sq_add_cos_sq (2 * Real.pi / n * i + r)
  · intro i h
    rw [hget (i + 1) h]
    have : 2 * Real.pi / n * ((i : ℕ) + 1 : ℕ) + r
        = (2 * Real.pi / n * i + r) + 2 * Real.pi / n := by
      push_cast
      ring
    rw [this]

/-- Witness for `C6_generate_poly` with the player's initial shape: a
hexagon of size 6 at the origin has exactly 6 vertices. -/
theorem C6_generate_poly_witness :
    (0 : ℤ) < 6 ∧ 3 ≤ 6 ∧ (generate_poly (0, 0) 0 6 6).length = 6 :=
  ⟨by decide, by decide, (C6_generate_poly (0, 0) 0 6 6 (by decide) (by decide)).1⟩

/-! ## Claim C7: enemy fill color encodes size class -/

/-- C7: whenever the fill color is computed, a bigger-than-player enemy
gets blue channel `ENEMY_BIG_COLOR_CODE` with red `255 · p/e` (green 0),
and a smaller-than-player enemy gets blue `ENEMY_SMALL_COLOR_CODE` with
green `255 · e/p` (red 0). -/
theorem C7_enemy_fill_color (p_size e_size : ℤ) :
    (p_size < e_size →
      update_color p_size e_size
        = (255 * (p_size : ℚ) / (e_size : ℚ), 0, (ENEMY_BIG_COLOR_CODE : ℚ))) ∧
    (e_size < p_size →
      update_color p_size e_size
        = (0, 255 * (e_size : ℚ) / (p_size : ℚ), (ENEMY_SMALL_COLOR_CODE : ℚ))) := by
  constructor
  · intro h
    unfold update_color
    rw [if_pos h]
  · intro h
    unfold update_color
    rw [if_neg (by omega)]

/-- Witness for `C7_enemy_fill_color`: enemy of size 12 against player of
size 6 (bigger: red shade, blue 4), and enemy of size 3 against player of
size 10 (smaller: green shade, blue 3). -/
theorem C7_enemy_fill_color_witness :
    ((6 : ℤ) < 12 ∧
      update_color 6 12 = (255 * ((6 : ℤ) : ℚ) / ((12 : ℤ) : ℚ), 0,
        (ENEMY_BIG_COLOR_CODE : ℚ))) ∧
    ((3 : ℤ) < 10 ∧
      update_color 10 3 = (0, 255 * ((3 : ℤ) : ℚ) / ((10 : ℤ) : ℚ),
        (ENEMY_SMALL_COLOR_CODE : ℚ))) :=
  ⟨⟨by decide, (C7_enemy_fill_color 6 12).1 (by decide)⟩,
   ⟨by decide, (C7_enemy_fill_color 10 3).2 (by decide)⟩⟩

/-! ## Claim C8: restart resets the round -/

/-- C8: in the game-over state, the restart trigger (Enter) replaces the
round state with a fresh `initialize_game_data()`: score 0, player size
back to `PLAYER_INIT_SIZE`, empty enemy collection. -/
theorem C8_restart_resets (gd : GameState) (enterDown : Bool)
    (h : enterDown = true) :
    (game_over_restart enterDown gd).1.score = 0 ∧
    (game_over_restart enterDown gd).1.player.sprite_data.size = PLAYER_INIT_SIZE ∧
    (game_over_restart enterDown gd).1.enemies = [] := by
  subst h
  exact ⟨rfl, rfl, rfl⟩

/-- Witness for `C8_restart_resets` from a mid-round state with score 7. -/
theorem C8_restart_resets_witness :
    true = true ∧
    (game_over_restart true { initialize_game_data with score := 7 }).1.score = 0 ∧
    (game_over_restart true { initialize_game_data with score := 7 }).1.player.sprite_data.size
      = PLAYER_INIT_SIZE ∧
    (game_over_restart true { initialize_game_data with score := 7 }).1.enemies = [] :=
  ⟨rfl, C8_restart_resets { initialize_game_data with score := 7 } true rfl⟩

/-! ## Claim C2: small-enemy pixel hit with an empty enemy collection -/

theorem points_to_check_ne_nil (pl : ActorData) : points_to_check pl ≠ [] := by
  unfold points_to_check
  simp

/-- C2 (the code, at the claim's failing input): when every sampled pixel
carries the small-enemy sentinel in its blue channel and the enemy
collection is empty, `check_collision` reaches
`closest_enemy = enemies[0]` on the empty list and fails with an uncaught
`IndexError` (modelled as `none`) — it does NOT skip the sample or return
NONE as the claim requires. -/
theorem C2_empty_enemy_small_pixel_crash :
    check_collision (fun _ => ENEMY_SMALL_COLOR_CODE)
      initialize_game_data.player [] = none := by
  unfold check_collision
  obtain ⟨p, rest, hp⟩ :=
    List.exists_cons_of_ne_nil (points_to_check_ne_nil initialize_game_data.player)
  rw [hp]
  unfold scan_points
  norm_num [ENEMY_SMALL_COLOR_CODE, ENEMY_BIG_COLOR_CODE]

/-! ## Claim C9: out-of-range pixel probe at the right wall -/

/-- With no directional key down, `PlayerActor.accelerate` sets the
acceleration to (0, 0). -/
theorem accelerate_noKeys (md : MoveData) :
    PlayerActor.accelerate ⟨false, false, false, false⟩ md
      = { md with acceleration := (0, 0) } := by
  unfold PlayerActor.accelerate
  have h0 : length ((0 : ℝ) + 0, (0 : ℝ) + 0) = 0 := by
    unfold length
    norm_num
  simp only [Bool.false_eq_true, if_false, h0]
  rw [if_neg (by norm_num [PLAYER_ACC_LIMIT])]
  norm_num

theorem pyMod_zero_left (y : ℝ) : pyMod 0 y = 0 := by
  unfold pyMod
  simp

/-- One move with no keys from `pre_wall_state` clamps the player exactly
onto the right wall, `position[0] = WINDOW_WIDTH - size = 794`, with
rotation still 0. -/
theorem wall_state_move :
    PlayerActor.move ⟨false, false, false, false⟩ pre_wall_state
      = { move_data :=
          { speed := (35 / 2, 0), position := (794, 300), acceleration := (0, 0)
          , friction := PLAYER_INIT_FRICTION, rotation := 0, rotation_rate := 0 }
        , sprite_data := { size := PLAYER_INIT_SIZE, num_sides := PLAYER_INIT_SIDES } } := by
  unfold PlayerActor.move Actor.move pre_wall_state
  rw [accelerate_noKeys]
  dsimp only
  have hspeed : ((20 : ℝ) + 0, (0 : ℝ) + 0) = ((20 : ℝ), (0 : ℝ)) := by norm_num
  rw [hspeed]
  have hclamp : PlayerActor.clampSpeed
      { speed := ((20 : ℝ), (0 : ℝ)), position := (795, 300), acceleration := (0, 0)
      , friction := PLAYER_INIT_FRICTION, rotation := 0, rotation_rate := 0 }
      = { speed := ((20 : ℝ), (0 : ℝ)), position := (795, 300), acceleration := (0, 0)
        , friction := PLAYER_INIT_FRICTION, rotation := 0, rotation_rate := 0 } := by
    apply clampSpeed_of_le
    dsimp only
    rw [length_eq_of_sq 20 0 20 (by norm_num) (by norm_num)]
    norm_num [PLAYER_SPEED_LIMIT]
  rw [PlayerActor.modify_speed, hclamp]
  unfold Actor.modify_speed
  dsimp only
  rw [show ((0 : ℝ) + 0) = (0 : ℝ) by norm_num, pyMod_zero_left]
  norm_num [PLAYER_INIT_FRICTION, PLAYER_INIT_SIZE, WINDOW_WIDTH, WINDOW_HEIGHT]

/-- C9: from the reachable state with the player clamped against the right
wall at rotation 0 (`position[0] = WINDOW_WIDTH - size`), the probe list of
`check_collision` contains vertex 0 at x-coordinate exactly
`WINDOW_WIDTH = 800`, whose truncated pixel coordinate 800 lies outside the
surface's valid x-range `[0, WINDOW_WIDTH - 1]`; the pixel reads of
`check_collision` carry no bounds guard. -/
theorem C9_pixel_probe_out_of_range :
    (PlayerActor.move ⟨false, false, false, false⟩ pre_wall_state).move_data.position
      = ((WINDOW_WIDTH : ℝ) - ((PLAYER_INIT_SIZE : ℤ) : ℝ), 300) ∧
    ((800 : ℝ), (300 : ℝ)) ∈
      points_to_check (PlayerActor.move ⟨false, false, false, false⟩ pre_wall_state) ∧
    pyTrunc (800 : ℝ) = (WINDOW_WIDTH : ℤ) ∧
    ¬ ((WINDOW_WIDTH : ℤ) ≤ (WINDOW_WIDTH : ℤ) - 1) := by
  rw [wall_state_move]
  refine ⟨by norm_num [WINDOW_WIDTH, PLAYER_INIT_SIZE], ?_, ?_, by decide⟩
  · unfold points_to_check
    apply List.mem_append_left
    apply List.mem_append_left
    unfold generate_poly
    dsimp only
    apply List.mem_map.mpr
    refine ⟨0, List.mem_range.mpr (by norm_num [PLAYER_INIT_SIDES]), ?_⟩
    norm_num [PLAYER_INIT_SIZE, Real.cos_zero, Real.sin_zero]
  · unfold pyTrunc
    rw [if_pos (by norm_num)]
    norm_num [WINDOW_WIDTH]

end VRITS
